import Mathlib

/-!
Verification of the loan-pricing calculator (`src/app.py`).

The schedule generator (`LoanPricingCalculator.generate_amortization_schedule`
and `generate_custom_schedule`) is embedded over `ℚ`: the Python code performs
field arithmetic, `max(0, ...)` clamping and truncating integer conversion, all
of which are modelled exactly over the rationals so that concrete schedules can
be evaluated by `decide`.  The pricing function
(`LoanPricingCalculator.calculate_break_even_rate`) needs the real power
`(1 - pd) ** duration_years` with a possibly fractional exponent, so it is
embedded over `ℝ` using `Real.rpow`.

Due dates are modelled as integer day offsets from the generation instant
("now"), mirroring `datetime.now() + timedelta(days=...)` and
`(date - prev_date).days` for dates at day granularity.
-/

namespace LoanPricing

/-- Python's `int(...)` conversion on a rational value: truncation toward zero
(`int(2.7) = 2`, `int(-2.7) = -2`).  Used at `src/app.py:107`,
`total_payments = int(duration_years * freq_per_year)`. -/
def pyInt (q : ℚ) : ℤ :=
  if q < 0 then ⌈q⌉ else ⌊q⌋

/-- Frequency resolution of `src/app.py:91-105`: maps the payment-frequency
string to `(freq_per_year, days_between)`; any unrecognised string silently
falls back to the monthly parameters `(12, 30)`. -/
def freqParams (payment_frequency : String) : ℕ × ℕ :=
  if payment_frequency = "Mensile" then (12, 30)
  else if payment_frequency = "Trimestrale" then (4, 90)
  else if payment_frequency = "Semestrale" then (2, 180)
  else if payment_frequency = "Annuale" then (1, 365)
  else (12, 30)

/-- `total_payments = int(duration_years * freq_per_year)` (`src/app.py:107`),
as a natural number of loop iterations: `range(1, total_payments + 1)` runs
`max 0 total_payments` times. -/
def total_payments (duration_years : ℚ) (payment_frequency : String) : ℕ :=
  (pyInt (duration_years * ((freqParams payment_frequency).1 : ℚ))).toNat

/-- `self.risk_free_rate = 0.03` (`src/app.py:26`). -/
def risk_free_rate : ℚ := 3 / 100

/-- One row of a generated schedule: the dict appended at
`src/app.py:128-135` (and the analogous branches).  `date` is the due date as
a day offset from "now". -/
structure PaymentRow where
  payment_number : ℕ
  date : ℤ
  payment : ℚ
  principal : ℚ
  interest : ℚ
  remaining_balance : ℚ
deriving DecidableEq

/-- One row of the user-supplied custom plan (`Date` / `Capitale` columns of
the DataFrame handed to `generate_custom_schedule`); `date` is a day offset
from "now".  The optional `Saldo_Iniziale` column checked at `src/app.py:205`
is never supplied by any caller in the repository, so the starting balance is
always `sum(custom_schedule['Capitale'])`. -/
structure CustomEntry where
  date : ℤ
  capitale : ℚ
deriving DecidableEq

/-- The level payment of the fixed-amortizing branch (`src/app.py:118-122`). -/
def fixed_amort_payment (loan_amount periodic_rate : ℚ) (total : ℕ) : ℚ :=
  if periodic_rate > 0 then
    loan_amount * (periodic_rate * (1 + periodic_rate) ^ total) /
      ((1 + periodic_rate) ^ total - 1)
  else loan_amount / total

/-- The `fixed_amortizing` loop body (`src/app.py:116-135`): `steps` iterations
remain, the current iteration is payment number `k`, `bal` is the running
(unclamped) `remaining_balance`.  Interest is `bal * periodic_rate`, the
principal component is `payment - interest`, and the emitted balance is clamped
with `max(0, ...)` while the loop variable threads the raw value. -/
def fixed_amort_rows (pay periodic_rate : ℚ) (days_between : ℕ) :
    ℕ → ℕ → ℚ → List PaymentRow
  | 0, _, _ => []
  | steps + 1, k, bal =>
    { payment_number := k, date := (k : ℤ) * (days_between : ℤ), payment := pay,
      principal := pay - bal * periodic_rate, interest := bal * periodic_rate,
      remaining_balance := max 0 (bal - (pay - bal * periodic_rate)) } ::
    fixed_amort_rows pay periodic_rate days_between steps (k + 1)
      (bal - (pay - bal * periodic_rate))

/-- The raw (unclamped) balance after running `steps` iterations of the
fixed-amortizing recurrence from balance `bal`. -/
def fixed_amort_final (pay periodic_rate : ℚ) : ℕ → ℚ → ℚ
  | 0, bal => bal
  | steps + 1, bal =>
    fixed_amort_final pay periodic_rate steps (bal - (pay - bal * periodic_rate))

/-- The per-period recomputed payment of the `variable_amortizing` branch
(`src/app.py:142-146`), with `m = total_payments - payment_num + 1` remaining
periods. -/
def var_amort_payment (bal periodic_variable_rate : ℚ) (m : ℕ) : ℚ :=
  if periodic_variable_rate > 0 then
    bal * (periodic_variable_rate * (1 + periodic_variable_rate) ^ m) /
      ((1 + periodic_variable_rate) ^ m - 1)
  else bal / m

/-- The `variable_amortizing` loop (`src/app.py:137-159`): at each iteration
`steps + 1` periods remain (matching `total_payments - payment_num + 1`). -/
def var_amort_rows (periodic_variable_rate : ℚ) (days_between : ℕ) :
    ℕ → ℕ → ℚ → List PaymentRow
  | 0, _, _ => []
  | steps + 1, k, bal =>
    { payment_number := k, date := (k : ℤ) * (days_between : ℤ),
      payment := var_amort_payment bal periodic_variable_rate (steps + 1),
      principal := var_amort_payment bal periodic_variable_rate (steps + 1) -
        bal * periodic_variable_rate,
      interest := bal * periodic_variable_rate,
      remaining_balance := max 0 (bal -
        (var_amort_payment bal periodic_variable_rate (steps + 1) -
          bal * periodic_variable_rate)) } ::
    var_amort_rows periodic_variable_rate days_between steps (k + 1)
      (bal - (var_amort_payment bal periodic_variable_rate (steps + 1) -
        bal * periodic_variable_rate))

/-- The `fixed_bullet` / `variable_bullet` loop (`src/app.py:161-190`):
interest-only rows on the full original principal, then a final row repaying
the principal with emitted balance literally `0`; the non-final rows emit
`remaining_balance = loan_amount` unclamped. -/
def bullet_rows (loan_amount rate_to_use : ℚ) (days_between total : ℕ) :
    List PaymentRow :=
  (List.range total).map fun i =>
    if i + 1 < total then
      { payment_number := i + 1, date := ((i : ℤ) + 1) * (days_between : ℤ),
        payment := loan_amount * rate_to_use, principal := 0,
        interest := loan_amount * rate_to_use,
        remaining_balance := loan_amount }
    else
      { payment_number := i + 1, date := ((i : ℤ) + 1) * (days_between : ℤ),
        payment := loan_amount * rate_to_use + loan_amount,
        principal := loan_amount,
        interest := loan_amount * rate_to_use,
        remaining_balance := 0 }

/-- The `generate_custom_schedule` loop (`src/app.py:200-223`): `prev_date` is
"now" (day 0) for the first entry and the previous entry's date afterwards;
`outstanding` is `sum(custom_schedule['Capitale'])` initially and the
previously emitted (clamped) `Remaining_Balance` afterwards; interest accrues
pro-rata over `days_from_start / 365`. -/
def custom_rows (annual_rate : ℚ) : ℤ → ℚ → ℕ → List CustomEntry → List PaymentRow
  | _, _, _, [] => []
  | prev_date, outstanding, k, e :: rest =>
    { payment_number := k, date := e.date,
      payment := e.capitale +
        outstanding * annual_rate * (((e.date - prev_date : ℤ) : ℚ) / 365),
      principal := e.capitale,
      interest := outstanding * annual_rate * (((e.date - prev_date : ℤ) : ℚ) / 365),
      remaining_balance := max 0 (outstanding - e.capitale) } ::
    custom_rows annual_rate e.date (max 0 (outstanding - e.capitale)) (k + 1) rest

/-- `LoanPricingCalculator.generate_custom_schedule` (`src/app.py:194-225`),
for a default-indexed entry list: the Python loop iterates with
`iterrows()`, whose index `i` equals the position exactly when the DataFrame
carries the default index `0..n-1`.  (The UI's `sort_values('Date')` at
`src/app.py:443` preserves the original index labels, so its output is
default-indexed — and this embedding applicable — precisely when the entered
rows were already in date order; for out-of-order input the label-keyed
accesses `schedule[i-1]` in the real pipeline raise `IndexError` instead of
producing a schedule.) -/
def generate_custom_schedule (custom_schedule : List CustomEntry)
    (annual_rate : ℚ) : List PaymentRow :=
  custom_rows annual_rate 0 ((custom_schedule.map CustomEntry.capitale).sum) 1
    custom_schedule

/-- `LoanPricingCalculator.generate_amortization_schedule`
(`src/app.py:81-192`) as the list of rows it builds: dispatches to the custom
generator when `loan_type == "custom"` and a custom schedule is present,
otherwise resolves the frequency, computes `total_payments` and `periodic_rate`
and runs the branch selected by the `loan_type` string; an unrecognised
`loan_type` appends nothing and yields the empty schedule. -/
def generate_schedule_rows (loan_amount annual_rate duration_years : ℚ)
    (payment_frequency loan_type : String) (variable_spread : ℚ)
    (custom_schedule : Option (List CustomEntry)) : List PaymentRow :=
  if loan_type = "custom" ∧ custom_schedule.isSome then
    generate_custom_schedule (custom_schedule.getD []) annual_rate
  else if loan_type = "fixed_amortizing" then
    fixed_amort_rows
      (fixed_amort_payment loan_amount
        (annual_rate / ((freqParams payment_frequency).1 : ℚ))
        (total_payments duration_years payment_frequency))
      (annual_rate / ((freqParams payment_frequency).1 : ℚ))
      (freqParams payment_frequency).2
      (total_payments duration_years payment_frequency) 1 loan_amount
  else if loan_type = "variable_amortizing" then
    var_amort_rows
      ((risk_free_rate + variable_spread) / ((freqParams payment_frequency).1 : ℚ))
      (freqParams payment_frequency).2
      (total_payments duration_years payment_frequency) 1 loan_amount
  else if loan_type = "fixed_bullet" then
    bullet_rows loan_amount
      (annual_rate / ((freqParams payment_frequency).1 : ℚ))
      (freqParams payment_frequency).2
      (total_payments duration_years payment_frequency)
  else if loan_type = "variable_bullet" then
    bullet_rows loan_amount
      ((risk_free_rate + variable_spread) / ((freqParams payment_frequency).1 : ℚ))
      (freqParams payment_frequency).2
      (total_payments duration_years payment_frequency)
  else []

/-- The failure channel the specification ascribes to the schedule generator.
The Python source raises no exception of its own; this type exists so that
"fails with `InvalidScheduleError`" is statable about the embedding. -/
inductive ScheduleError where
  | invalidSchedule : String → ScheduleError
deriving DecidableEq

/-- `generate_amortization_schedule` with its (never used) failure channel:
the Python body contains no `raise`, so every input maps to `Except.ok` of the
computed rows. -/
def generate_amortization_schedule (loan_amount annual_rate duration_years : ℚ)
    (payment_frequency loan_type : String) (variable_spread : ℚ)
    (custom_schedule : Option (List CustomEntry)) :
    Except ScheduleError (List PaymentRow) :=
  .ok (generate_schedule_rows loan_amount annual_rate duration_years
    payment_frequency loan_type variable_spread custom_schedule)

/-- The failure channel of the pricing function.  The Python body of
`calculate_break_even_rate` performs no validation; its only possible failure
is the interpreter's `ZeroDivisionError` from `expected_loss / loan_amount`
when `loan_amount == 0`.  `invalidInput` exists so that the specification's
"fails with an `InvalidInputError`" is statable about the embedding. -/
inductive InputError where
  | invalidInput : String → InputError
  | zeroDivision : InputError
deriving DecidableEq

/-- The result dict of `calculate_break_even_rate` (`src/app.py:71-79`). -/
structure PricingResult where
  market_rate : ℝ
  financial_spread : ℝ
  operational_spread : ℝ
  credit_spread : ℝ
  break_even_rate : ℝ
  expected_loss : ℝ
  cumulative_pd : ℝ

/-- The dict built by `calculate_break_even_rate` (`src/app.py:52-79`) when the
division succeeds: `cumulative_pd = 1 - (1 - pd) ** duration` (real power, so
fractional durations are supported), `expected_loss = loan * cum_pd * lgd`,
`credit_spread = expected_loss / loan`, `financial_spread` the
capital-weighted blend, `operational_spread` the cost rate unchanged,
`market_rate = risk_free + duration * 0.001`, and `break_even_rate` their
sum. -/
noncomputable def break_even_breakdown (loan_amount duration_years pd_1year
    operational_costs_pct funding_spread equity_cost capital_ratio
    lgd_rate : ℝ) : PricingResult :=
  { market_rate := (risk_free_rate : ℝ) + duration_years * 0.001,
    financial_spread := capital_ratio * equity_cost +
      (1 - capital_ratio) * funding_spread,
    operational_spread := operational_costs_pct,
    credit_spread := loan_amount * (1 - (1 - pd_1year) ^ duration_years) *
      lgd_rate / loan_amount,
    break_even_rate := ((risk_free_rate : ℝ) + duration_years * 0.001) +
      (capital_ratio * equity_cost + (1 - capital_ratio) * funding_spread) +
      operational_costs_pct +
      loan_amount * (1 - (1 - pd_1year) ^ duration_years) * lgd_rate /
        loan_amount,
    expected_loss := loan_amount * (1 - (1 - pd_1year) ^ duration_years) *
      lgd_rate,
    cumulative_pd := 1 - (1 - pd_1year) ^ duration_years }

/-- `LoanPricingCalculator.calculate_break_even_rate` (`src/app.py:45-79`):
no input validation, only the implicit division failure at
`loan_amount == 0`. -/
noncomputable def calculate_break_even_rate (loan_amount duration_years
    pd_1year operational_costs_pct funding_spread equity_cost capital_ratio
    lgd_rate : ℝ) : Except InputError PricingResult :=
  if loan_amount = 0 then .error .zeroDivision
  else .ok (break_even_breakdown loan_amount duration_years pd_1year
    operational_costs_pct funding_spread equity_cost capital_ratio lgd_rate)

/-! ### Generic list helper -/

theorem cons_getLast {α : Type} (a : α) (l : List α) (h : l ≠ []) :
    (a :: l).getLast? = l.getLast? := by
  cases l with
  | nil => exact absurd rfl h
  | cons b t => exact List.getLast?_cons_cons ..

/-! ### Fixed-amortizing structure -/

theorem fixed_amort_rows_length (pay r : ℚ) (db : ℕ) :
    ∀ steps k bal, (fixed_amort_rows pay r db steps k bal).length = steps := by
  intro steps
  induction steps with
  | zero => intro k bal; rfl
  | succ m ih =>
    intro k bal
    rw [fixed_amort_rows]
    simp [ih]

theorem fixed_amort_rows_map_pn (pay r : ℚ) (db : ℕ) :
    ∀ steps k bal, (fixed_amort_rows pay r db steps k bal).map
      PaymentRow.payment_number = List.range' k steps := by
  intro steps
  induction steps with
  | zero => intro k bal; rfl
  | succ m ih =>
    intro k bal
    rw [fixed_amort_rows, List.range']
    simp [ih]

theorem fixed_amort_rows_nonneg (pay r : ℚ) (db : ℕ) :
    ∀ steps k bal row, row ∈ fixed_amort_rows pay r db steps k bal →
      0 ≤ row.remaining_balance := by
  intro steps
  induction steps with
  | zero => intro k bal row h; simp [fixed_amort_rows] at h
  | succ m ih =>
    intro k bal row h
    rw [fixed_amort_rows] at h
    rcases List.mem_cons.mp h with h | h
    · subst h; exact le_max_left 0 _
    · exact ih _ _ _ h

theorem fixed_amort_rows_sum_principal (pay r : ℚ) (db : ℕ) :
    ∀ steps k bal, ((fixed_amort_rows pay r db steps k bal).map
        PaymentRow.principal).sum =
      bal - fixed_amort_final pay r steps bal := by
  intro steps
  induction steps with
  | zero => intro k bal; simp [fixed_amort_rows, fixed_amort_final]
  | succ m ih =>
    intro k bal
    rw [fixed_amort_rows, fixed_amort_final]
    simp only [List.map_cons, List.sum_cons, ih]
    ring

theorem fixed_amort_rows_getLast (pay r : ℚ) (db : ℕ) :
    ∀ steps k bal, ((fixed_amort_rows pay r db (steps + 1) k bal).getLast?).map
        PaymentRow.remaining_balance =
      some (max 0 (fixed_amort_final pay r (steps + 1) bal)) := by
  intro steps
  induction steps with
  | zero =>
    intro k bal
    rw [fixed_amort_rows, fixed_amort_rows]
    rw [fixed_amort_final, fixed_amort_final]
    rfl
  | succ m ih =>
    intro k bal
    rw [fixed_amort_rows, fixed_amort_final]
    rw [cons_getLast _ _ (by
      intro hnil
      have := fixed_amort_rows_length pay r db (m + 1) (k + 1)
        (bal - (pay - bal * r))
      rw [hnil] at this
      simp at this)]
    exact ih _ _

theorem fixed_amort_final_mul (pay r : ℚ) :
    ∀ steps bal, fixed_amort_final pay r steps bal * r =
      bal * (1 + r) ^ steps * r - pay * ((1 + r) ^ steps - 1) := by
  intro steps
  induction steps with
  | zero => intro bal; simp [fixed_amort_final]
  | succ m ih =>
    intro bal
    rw [fixed_amort_final, ih]
    ring

theorem fixed_amort_final_r_zero (pay : ℚ) :
    ∀ steps bal, fixed_amort_final pay 0 steps bal = bal - steps * pay := by
  intro steps
  induction steps with
  | zero => intro bal; simp [fixed_amort_final]
  | succ m ih =>
    intro bal
    rw [fixed_amort_final, ih]
    push_cast
    ring

theorem fixed_amort_final_zero (L r : ℚ) (n : ℕ) (hr : 0 ≤ r) (hn : 1 ≤ n) :
    fixed_amort_final (fixed_amort_payment L r n) r n L = 0 := by
  rcases hr.lt_or_eq with hpos | hzero
  · have hx : (1 : ℚ) < (1 + r) ^ n :=
      one_lt_pow₀ (by linarith) (by omega)
    have hD : (1 + r) ^ n - 1 ≠ 0 := sub_ne_zero_of_ne (ne_of_gt hx)
    have hpay : fixed_amort_payment L r n =
        L * (r * (1 + r) ^ n) / ((1 + r) ^ n - 1) := by
      rw [fixed_amort_payment, if_pos hpos]
    have h0 : fixed_amort_final (fixed_amort_payment L r n) r n L * r = 0 := by
      rw [fixed_amort_final_mul (fixed_amort_payment L r n) r n L, hpay,
        div_mul_cancel₀ _ hD]
      ring
    rcases mul_eq_zero.mp h0 with h1 | h1
    · exact h1
    · exact absurd h1 (ne_of_gt hpos)
  · subst hzero
    have hpay : fixed_amort_payment L 0 n = L / n := by
      rw [fixed_amort_payment, if_neg (by norm_num)]
    rw [fixed_amort_final_r_zero, hpay]
    have hn0 : (n : ℚ) ≠ 0 := Nat.cast_ne_zero.mpr (by omega)
    field_simp

/-! ### Variable-amortizing structure -/

theorem var_amort_rows_length (r : ℚ) (db : ℕ) :
    ∀ steps k bal, (var_amort_rows r db steps k bal).length = steps := by
  intro steps
  induction steps with
  | zero => intro k bal; rfl
  | succ m ih =>
    intro k bal
    rw [var_amort_rows]
    simp [ih]

theorem var_amort_rows_map_pn (r : ℚ) (db : ℕ) :
    ∀ steps k bal, (var_amort_rows r db steps k bal).map
      PaymentRow.payment_number = List.range' k steps := by
  intro steps
  induction steps with
  | zero => intro k bal; rfl
  | succ m ih =>
    intro k bal
    rw [var_amort_rows, List.range']
    simp [ih]

theorem var_amort_rows_nonneg (r : ℚ) (db : ℕ) :
    ∀ steps k bal row, row ∈ var_amort_rows r db steps k bal →
      0 ≤ row.remaining_balance := by
  intro steps
  induction steps with
  | zero => intro k bal row h; simp [var_amort_rows] at h
  | succ m ih =>
    intro k bal row h
    rw [var_amort_rows] at h
    rcases List.mem_cons.mp h with h | h
    · subst h; exact le_max_left 0 _
    · exact ih _ _ _ h

theorem var_amort_payment_one (bal r : ℚ) (hr : 0 ≤ r) :
    var_amort_payment bal r 1 - bal * r = bal := by
  rcases hr.lt_or_eq with hpos | hzero
  · rw [var_amort_payment, if_pos hpos, pow_one]
    have : bal * (r * (1 + r)) / (1 + r - 1) = bal * (1 + r) := by
      rw [show (1 + r - 1 : ℚ) = r by ring, mul_comm r (1 + r),
        mul_div_assoc, mul_div_assoc, div_self (ne_of_gt hpos), mul_one]
    rw [this]
    ring
  · rw [var_amort_payment, if_neg (by rw [← hzero]; norm_num), ← hzero]
    norm_num

theorem var_amort_rows_getLast_zero (r : ℚ) (db : ℕ) (hr : 0 ≤ r) :
    ∀ steps k bal, ((var_amort_rows r db (steps + 1) k bal).getLast?).map
      PaymentRow.remaining_balance = some 0 := by
  intro steps
  induction steps with
  | zero =>
    intro k bal
    rw [var_amort_rows, var_amort_rows]
    have h1 : bal - (var_amort_payment bal r 1 - bal * r) = 0 := by
      rw [var_amort_payment_one bal r hr]; ring
    simp [h1]
  | succ m ih =>
    intro k bal
    rw [var_amort_rows]
    rw [cons_getLast _ _ (by
      intro hnil
      have := var_amort_rows_length r db (m + 1) (k + 1)
        (bal - (var_amort_payment bal r (m + 1 + 1) - bal * r))
      rw [hnil] at this
      simp at this)]
    exact ih _ _

/-! ### Bullet structures -/

theorem bullet_rows_length (L r : ℚ) (db n : ℕ) :
    (bullet_rows L r db n).length = n := by
  simp [bullet_rows]

theorem bullet_rows_map_pn (L r : ℚ) (db n : ℕ) :
    (bullet_rows L r db n).map PaymentRow.payment_number = List.range' 1 n := by
  rw [bullet_rows, List.map_map, List.range'_eq_map_range]
  apply List.map_congr_left
  intro i _
  by_cases h : i + 1 < n
  · simp [h, Nat.add_comm]
  · simp [h, Nat.add_comm]

theorem bullet_rows_nonneg (L r : ℚ) (db n : ℕ) (hL : 0 ≤ L) :
    ∀ row ∈ bullet_rows L r db n, 0 ≤ row.remaining_balance := by
  intro row h
  rw [bullet_rows] at h
  rcases List.mem_map.mp h with ⟨i, _, hrow⟩
  by_cases hi : i + 1 < n
  · rw [if_pos hi] at hrow; rw [← hrow]; exact hL
  · rw [if_neg hi] at hrow; rw [← hrow]

theorem bullet_rows_getLast_zero (L r : ℚ) (db m : ℕ) :
    ((bullet_rows L r db (m + 1)).getLast?).map
      PaymentRow.remaining_balance = some 0 := by
  rw [bullet_rows, List.range_succ, List.map_append, List.map_singleton,
    List.getLast?_concat]
  simp

theorem bullet_rows_getElem (L r : ℚ) (db n i : ℕ) (h : i < n) :
    (bullet_rows L r db n)[i]? =
      some (if i + 1 < n then
        { payment_number := i + 1, date := ((i : ℤ) + 1) * (db : ℤ),
          payment := L * r, principal := 0, interest := L * r,
          remaining_balance := L }
      else
        { payment_number := i + 1, date := ((i : ℤ) + 1) * (db : ℤ),
          payment := L * r + L, principal := L, interest := L * r,
          remaining_balance := 0 }) := by
  rw [bullet_rows, List.getElem?_map, List.getElem?_range h]
  rfl

/-! ### Custom structure -/

theorem custom_rows_length (rate : ℚ) :
    ∀ es pd bal k, (custom_rows rate pd bal k es).length = es.length := by
  intro es
  induction es with
  | nil => intro pd bal k; rfl
  | cons e rest ih =>
    intro pd bal k
    rw [custom_rows]
    simp [ih]

theorem custom_rows_map_pn (rate : ℚ) :
    ∀ es pd bal k, (custom_rows rate pd bal k es).map
      PaymentRow.payment_number = List.range' k es.length := by
  intro es
  induction es with
  | nil => intro pd bal k; rfl
  | cons e rest ih =>
    intro pd bal k
    rw [custom_rows, List.length_cons, List.range']
    simp [ih]

theorem custom_rows_map_date (rate : ℚ) :
    ∀ es pd bal k, (custom_rows rate pd bal k es).map PaymentRow.date =
      es.map CustomEntry.date := by
  intro es
  induction es with
  | nil => intro pd bal k; rfl
  | cons e rest ih =>
    intro pd bal k
    rw [custom_rows]
    simp [ih]

theorem custom_rows_nonneg (rate : ℚ) :
    ∀ es pd bal k row, row ∈ custom_rows rate pd bal k es →
      0 ≤ row.remaining_balance := by
  intro es
  induction es with
  | nil => intro pd bal k row h; simp [custom_rows] at h
  | cons e rest ih =>
    intro pd bal k row h
    rw [custom_rows] at h
    rcases List.mem_cons.mp h with h | h
    · subst h; exact le_max_left 0 _
    · exact ih _ _ _ _ h

theorem custom_rows_last_zero (rate : ℚ) :
    ∀ es, es ≠ [] → (∀ e ∈ es, 0 ≤ e.capitale) → ∀ pd k,
      ((custom_rows rate pd ((es.map CustomEntry.capitale).sum) k
        es).getLast?).map PaymentRow.remaining_balance = some 0 := by
  intro es
  induction es with
  | nil => intro h; exact absurd rfl h
  | cons e rest ih =>
    intro _ hcaps pd k
    cases rest with
    | nil =>
      rw [custom_rows, custom_rows]
      simp
    | cons e2 rest2 =>
      rw [custom_rows]
      have hsum : (((e :: e2 :: rest2).map CustomEntry.capitale).sum -
          e.capitale) = ((e2 :: rest2).map CustomEntry.capitale).sum := by
        simp
      have hnn : 0 ≤ ((e2 :: rest2).map CustomEntry.capitale).sum := by
        apply List.sum_nonneg
        intro x hx
        rcases List.mem_map.mp hx with ⟨a, ha, hax⟩
        rw [← hax]
        exact hcaps a (List.mem_cons_of_mem e ha)
      rw [hsum, max_eq_right hnn]
      rw [cons_getLast _ _ (by
        intro hnil
        have := custom_rows_length rate (e2 :: rest2) e.date
          ((List.map CustomEntry.capitale (e2 :: rest2)).sum) (k + 1)
        rw [hnil] at this
        simp at this)]
      exact ih (by simp) (fun a ha => hcaps a (List.mem_cons_of_mem e ha))
        e.date (k + 1)

/-! ### Dispatcher unfolding -/

theorem generate_fixed_amortizing (L r d : ℚ) (freq : String) (vs : ℚ) :
    generate_schedule_rows L r d freq "fixed_amortizing" vs none =
      fixed_amort_rows
        (fixed_amort_payment L (r / ((freqParams freq).1 : ℚ))
          (total_payments d freq))
        (r / ((freqParams freq).1 : ℚ)) (freqParams freq).2
        (total_payments d freq) 1 L := by
  rw [generate_schedule_rows, if_neg (by simp), if_pos rfl]

theorem generate_variable_amortizing (L r d : ℚ) (freq : String) (vs : ℚ) :
    generate_schedule_rows L r d freq "variable_amortizing" vs none =
      var_amort_rows ((risk_free_rate + vs) / ((freqParams freq).1 : ℚ))
        (freqParams freq).2 (total_payments d freq) 1 L := by
  rw [generate_schedule_rows, if_neg (by simp), if_neg (by decide), if_pos rfl]

theorem generate_fixed_bullet (L r d : ℚ) (freq : String) (vs : ℚ) :
    generate_schedule_rows L r d freq "fixed_bullet" vs none =
      bullet_rows L (r / ((freqParams freq).1 : ℚ)) (freqParams freq).2
        (total_payments d freq) := by
  rw [generate_schedule_rows, if_neg (by simp), if_neg (by decide),
    if_neg (by decide), if_pos rfl]

theorem generate_variable_bullet (L r d : ℚ) (freq : String) (vs : ℚ) :
    generate_schedule_rows L r d freq "variable_bullet" vs none =
      bullet_rows L ((risk_free_rate + vs) / ((freqParams freq).1 : ℚ))
        (freqParams freq).2 (total_payments d freq) := by
  rw [generate_schedule_rows, if_neg (by simp), if_neg (by decide),
    if_neg (by decide), if_neg (by decide), if_pos rfl]

theorem generate_custom (L r d : ℚ) (freq : String) (vs : ℚ)
    (entries : List CustomEntry) :
    generate_schedule_rows L r d freq "custom" vs (some entries) =
      generate_custom_schedule entries r := by
  rw [generate_schedule_rows, if_pos ⟨rfl, rfl⟩]
  rfl

/-! ### Concrete evaluation helpers -/

theorem freqParams_mensile : freqParams "Mensile" = (12, 30) := rfl

theorem freqParams_annuale : freqParams "Annuale" = (1, 365) := rfl

theorem total_payments_eq {d : ℚ} {freq : String} {f db : ℕ} {n : ℕ}
    (hfp : freqParams freq = (f, db)) (h0 : ¬ d * (f : ℚ) < 0)
    (h : ⌊d * (f : ℚ)⌋ = (n : ℤ)) : total_payments d freq = n := by
  rw [total_payments, hfp]
  show (pyInt (d * (f : ℚ))).toNat = n
  rw [pyInt, if_neg h0, h]
  exact Int.toNat_natCast n

/-! ### Claim C1 -/

/-- Claim C1: for every input accepted by the pricing computation (all spec
preconditions hold, in particular `principal > 0`), the returned breakdown
satisfies `break_even_rate = market_rate + financial_spread +
operational_spread + credit_spread` as an exact identity, with
`market_rate = 0.03 + duration_years * 0.001`,
`financial_spread = capital_ratio * equity_cost +
(1 - capital_ratio) * funding_spread`,
`operational_spread = operational_cost_rate`, and
`credit_spread = (1 - (1 - pd_1y) ^ duration_years) * lgd`. -/
theorem break_even_components (L d pd oc fs ec cr lgd : ℝ)
    (hL : 0 < L) (hpd0 : 0 < pd) (hpd1 : pd < 1) (hlgd0 : 0 ≤ lgd)
    (hlgd1 : lgd ≤ 1) (hd : 0 < d) (hcr0 : 0 ≤ cr) (hcr1 : cr ≤ 1) :
    calculate_break_even_rate L d pd oc fs ec cr lgd =
      .ok (break_even_breakdown L d pd oc fs ec cr lgd) ∧
    (break_even_breakdown L d pd oc fs ec cr lgd).break_even_rate =
      (break_even_breakdown L d pd oc fs ec cr lgd).market_rate +
      (break_even_breakdown L d pd oc fs ec cr lgd).financial_spread +
      (break_even_breakdown L d pd oc fs ec cr lgd).operational_spread +
      (break_even_breakdown L d pd oc fs ec cr lgd).credit_spread ∧
    (break_even_breakdown L d pd oc fs ec cr lgd).market_rate =
      0.03 + d * 0.001 ∧
    (break_even_breakdown L d pd oc fs ec cr lgd).financial_spread =
      cr * ec + (1 - cr) * fs ∧
    (break_even_breakdown L d pd oc fs ec cr lgd).operational_spread = oc ∧
    (break_even_breakdown L d pd oc fs ec cr lgd).credit_spread =
      (1 - (1 - pd) ^ d) * lgd := by
  have hLne : L ≠ 0 := ne_of_gt hL
  refine ⟨?_, rfl, ?_, rfl, rfl, ?_⟩
  · rw [calculate_break_even_rate, if_neg hLne]
  · show (risk_free_rate : ℝ) + d * 0.001 = 0.03 + d * 0.001
    norm_num [risk_free_rate]
  · show L * (1 - (1 - pd) ^ d) * lgd / L = (1 - (1 - pd) ^ d) * lgd
    field_simp
    ring

theorem break_even_components_witness :
    calculate_break_even_rate 1 1 (1/2) 0 0 0 0 (1/2) =
      .ok (break_even_breakdown 1 1 (1/2) 0 0 0 0 (1/2)) ∧
    (break_even_breakdown 1 1 (1/2) 0 0 0 0 (1/2)).break_even_rate =
      (break_even_breakdown 1 1 (1/2) 0 0 0 0 (1/2)).market_rate +
      (break_even_breakdown 1 1 (1/2) 0 0 0 0 (1/2)).financial_spread +
      (break_even_breakdown 1 1 (1/2) 0 0 0 0 (1/2)).operational_spread +
      (break_even_breakdown 1 1 (1/2) 0 0 0 0 (1/2)).credit_spread ∧
    (break_even_breakdown 1 1 (1/2) 0 0 0 0 (1/2)).market_rate =
      0.03 + 1 * 0.001 ∧
    (break_even_breakdown 1 1 (1/2) 0 0 0 0 (1/2)).financial_spread =
      0 * 0 + (1 - 0) * 0 ∧
    (break_even_breakdown 1 1 (1/2) 0 0 0 0 (1/2)).operational_spread = 0 ∧
    (break_even_breakdown 1 1 (1/2) 0 0 0 0 (1/2)).credit_spread =
      (1 - (1 - 1/2) ^ (1 : ℝ)) * (1/2) :=
  break_even_components 1 1 (1/2) 0 0 0 0 (1/2) (by norm_num) (by norm_num)
    (by norm_num) (by norm_num) (by norm_num) (by norm_num) (by norm_num)
    (by norm_num)

/-! ### Claim C2 -/

/-- Claim C9: with all other inputs fixed and accepted, `break_even_rate` is
monotone non-decreasing in the one-year probability of default. -/
theorem break_even_monotone_pd (L d pd₁ pd₂ oc fs ec cr lgd : ℝ)
    (hL : 0 < L) (h0 : 0 < pd₁) (h1 : pd₂ < 1) (h12 : pd₁ ≤ pd₂)
    (hlgd : 0 ≤ lgd) (hd : 0 < d) :
    (break_even_breakdown L d pd₁ oc fs ec cr lgd).break_even_rate ≤
      (break_even_breakdown L d pd₂ oc fs ec cr lgd).break_even_rate := by
  have hLne : L ≠ 0 := ne_of_gt hL
  show ((risk_free_rate : ℝ) + d * 0.001) +
      (cr * ec + (1 - cr) * fs) + oc +
      L * (1 - (1 - pd₁) ^ d) * lgd / L ≤
    ((risk_free_rate : ℝ) + d * 0.001) +
      (cr * ec + (1 - cr) * fs) + oc +
      L * (1 - (1 - pd₂) ^ d) * lgd / L
  have e : ∀ p : ℝ, L * (1 - (1 - p) ^ d) * lgd / L =
      (1 - (1 - p) ^ d) * lgd := by
    intro p; field_simp; ring
  rw [e pd₁, e pd₂]
  apply add_le_add_left
  apply mul_le_mul_of_nonneg_right _ hlgd
  apply sub_le_sub_left
  exact Real.rpow_le_rpow (by linarith) (by linarith) hd.le

theorem break_even_monotone_pd_witness :
    (break_even_breakdown 1 2 (1/4) 0 0 0 0 1).break_even_rate ≤
      (break_even_breakdown 1 2 (1/2) 0 0 0 0 1).break_even_rate :=
  break_even_monotone_pd 1 2 (1/4) (1/2) 0 0 0 0 1 (by norm_num) (by norm_num)
    (by norm_num) (by norm_num) (by norm_num) (by norm_num)

/-! ### Claim C10 -/

/-- Claim C10: any payment-frequency string other than the four enumerated
Italian labels silently falls back to the monthly parameters: the generated
schedule for a non-custom structure equals the schedule that "Mensile" would
produce, with no failure. -/
theorem frequency_fallback (L r d : ℚ) (freq lt : String) (vs : ℚ)
    (cs : Option (List CustomEntry))
    (h1 : freq ≠ "Mensile") (h2 : freq ≠ "Trimestrale")
    (h3 : freq ≠ "Semestrale") (h4 : freq ≠ "Annuale") (_h5 : lt ≠ "custom") :
    generate_schedule_rows L r d freq lt vs cs =
      generate_schedule_rows L r d "Mensile" lt vs cs := by
  have hfp : freqParams freq = freqParams "Mensile" := by
    rw [freqParams, if_neg h1, if_neg h2, if_neg h3, if_neg h4]
    rfl
  have htp : total_payments d freq = total_payments d "Mensile" := by
    rw [total_payments, total_payments, hfp]
  rw [generate_schedule_rows, generate_schedule_rows, hfp, htp]

theorem frequency_fallback_witness :
    generate_schedule_rows 1000 (5/100) 2 "Weekly" "fixed_bullet" 0 none =
      generate_schedule_rows 1000 (5/100) 2 "Mensile" "fixed_bullet" 0 none :=
  frequency_fallback 1000 (5/100) 2 "Weekly" "fixed_bullet" 0 none
    (by decide) (by decide) (by decide) (by decide) (by decide)

/-! ### Claim C5 -/

/-- Claim C5: in a fixed-bullet schedule with `n` total periods, every period
`k < n` has principal component `0`, interest `principal * (annual_rate /
periods_per_year)` and remaining balance equal to the original principal,
while period `n` repays the full principal with the same interest and
remaining balance `0`. -/
theorem fixed_bullet_rows_spec (L r d : ℚ) (freq : String) (vs : ℚ) (i : ℕ)
    (h : i < total_payments d freq) :
    (generate_schedule_rows L r d freq "fixed_bullet" vs none)[i]? =
      some (if i + 1 < total_payments d freq then
        { payment_number := i + 1,
          date := ((i : ℤ) + 1) * ((freqParams freq).2 : ℤ),
          payment := L * (r / ((freqParams freq).1 : ℚ)), principal := 0,
          interest := L * (r / ((freqParams freq).1 : ℚ)),
          remaining_balance := L }
      else
        { payment_number := i + 1,
          date := ((i : ℤ) + 1) * ((freqParams freq).2 : ℤ),
          payment := L * (r / ((freqParams freq).1 : ℚ)) + L, principal := L,
          interest := L * (r / ((freqParams freq).1 : ℚ)),
          remaining_balance := 0 }) := by
  rw [generate_fixed_bullet]
  exact bullet_rows_getElem L (r / ((freqParams freq).1 : ℚ))
    (freqParams freq).2 (total_payments d freq) i h

theorem fixed_bullet_rows_spec_witness :
    (generate_schedule_rows 100000 (5/100) 1 "Mensile" "fixed_bullet" 0
        none)[4]? =
      some { payment_number := 5, date := 150,
             payment := 100000 * (5/100/12), principal := 0,
             interest := 100000 * (5/100/12), remaining_balance := 100000 } ∧
    (generate_schedule_rows 100000 (5/100) 1 "Mensile" "fixed_bullet" 0
        none)[11]? =
      some { payment_number := 12, date := 360,
             payment := 100000 * (5/100/12) + 100000, principal := 100000,
             interest := 100000 * (5/100/12), remaining_balance := 0 } := by
  have ht : total_payments 1 "Mensile" = 12 :=
    total_payments_eq freqParams_mensile (by norm_num) (by norm_num)
  constructor
  · rw [fixed_bullet_rows_spec 100000 (5/100) 1 "Mensile" 0 4
      (by rw [ht]; norm_num)]
    rw [ht, freqParams_mensile]
    norm_num [PaymentRow.mk.injEq]
  · rw [fixed_bullet_rows_spec 100000 (5/100) 1 "Mensile" 0 11
      (by rw [ht]; norm_num)]
    rw [ht, freqParams_mensile]
    norm_num [PaymentRow.mk.injEq]

/-! ### Claim C6 -/

/-- Claim C6 counterexample: a duration of 2.7 years at annual frequency
generates `int(2.7) = 2` periods, not `round(2.7) = 3` periods as the claim
states. -/
theorem period_count_not_round :
    (generate_schedule_rows 1000 (5/100) (27/10) "Annuale" "fixed_amortizing"
      0 none).length = 2 ∧
    (round ((27/10 : ℚ) * ((freqParams "Annuale").1 : ℚ))).toNat = 3 ∧
    (2 : ℕ) ≠ 3 := by
  refine ⟨?_, ?_, by norm_num⟩
  · rw [generate_fixed_amortizing, fixed_amort_rows_length]
    exact total_payments_eq freqParams_annuale (by norm_num) (by norm_num)
  · rw [freqParams_annuale]
    show (round ((27/10 : ℚ) * ((1 : ℕ) : ℚ))).toNat = 3
    have h3 : round ((27/10 : ℚ) * ((1 : ℕ) : ℚ)) = 3 := by
      norm_num [round_eq]
    rw [h3]
    rfl

/-- Claim C6 (amended): for every non-custom call, the number of generated
periods equals `int(duration_years * periods_per_year)` — Python truncation
toward zero, not rounding to the nearest integer (2.7 years at Annual
frequency gives 2 periods, not 3). -/
theorem generate_schedule_length (L r d : ℚ) (freq lt : String) (vs : ℚ)
    (h : lt = "fixed_amortizing" ∨ lt = "variable_amortizing" ∨
      lt = "fixed_bullet" ∨ lt = "variable_bullet") :
    (generate_schedule_rows L r d freq lt vs none).length =
      (pyInt (d * ((freqParams freq).1 : ℚ))).toNat := by
  rcases h with h | h | h | h <;> subst h
  · rw [generate_fixed_amortizing, fixed_amort_rows_length]; rfl
  · rw [generate_variable_amortizing, var_amort_rows_length]; rfl
  · rw [generate_fixed_bullet, bullet_rows_length]; rfl
  · rw [generate_variable_bullet, bullet_rows_length]; rfl

theorem generate_schedule_length_witness :
    (generate_schedule_rows 1000 (5/100) (27/10) "Annuale" "variable_bullet" 0
      none).length = (pyInt ((27/10) * ((freqParams "Annuale").1 : ℚ))).toNat :=
  generate_schedule_length 1000 (5/100) (27/10) "Annuale" "variable_bullet" 0
    (Or.inr (Or.inr (Or.inr rfl)))

/-! ### Claim C3 -/

/-- Claim C3 counterexample: a call whose computed total period count is zero
(duration 0.25 years at annual frequency, `int(0.25) = 0`) returns
`Except.ok` with an empty schedule instead of failing with an
`InvalidScheduleError`. -/
theorem schedule_no_error_example :
    generate_amortization_schedule 1000 (5/100) (1/4) "Annuale"
      "fixed_amortizing" 0 none = .ok [] := by
  have ht : total_payments (1/4) "Annuale" = 0 :=
    total_payments_eq freqParams_annuale (by norm_num) (by norm_num)
  have h : generate_schedule_rows 1000 (5/100) (1/4) "Annuale"
      "fixed_amortizing" 0 none = [] := by
    rw [generate_fixed_amortizing, ht]
    rfl
  rw [generate_amortization_schedule, h]

/-- Claim C3 (amended): the schedule generator performs no validation and
never raises: every call returns `Except.ok` of the computed rows; a
non-positive computed period count yields an empty schedule for every
non-custom structure, and an empty custom entry list yields an empty
schedule, rather than an `InvalidScheduleError`. -/
theorem schedule_no_validation (L r d : ℚ) (freq lt : String) (vs : ℚ)
    (cs : Option (List CustomEntry)) :
    (generate_amortization_schedule L r d freq lt vs cs =
      .ok (generate_schedule_rows L r d freq lt vs cs)) ∧
    (total_payments d freq = 0 → lt ≠ "custom" →
      generate_schedule_rows L r d freq lt vs cs = []) ∧
    generate_custom_schedule [] r = [] := by
  refine ⟨rfl, ?_, rfl⟩
  intro h hlt
  rw [generate_schedule_rows, if_neg (fun hc => hlt hc.1)]
  split_ifs with h1 h2 h3 h4
  · rw [h]; rfl
  · rw [h]; rfl
  · rw [h]; rfl
  · rw [h]; rfl
  · rfl

theorem schedule_no_validation_witness :
    generate_schedule_rows 1000 (5/100) (1/2) "Annuale" "fixed_amortizing" 0
      none = [] :=
  (schedule_no_validation 1000 (5/100) (1/2) "Annuale" "fixed_amortizing" 0
    none).2.1
    (total_payments_eq freqParams_annuale (by norm_num) (by norm_num))
    (by decide)

/-! ### Claim C8 -/

/-- Claim C8 counterexample: with principal 1 and negative annual rate `-0.5`
over one annual period, the fixed-amortizing principal components sum to 1.5,
not to the principal 1. -/
theorem amortizing_negative_rate_example :
    ((generate_schedule_rows 1 (-1/2) 1 "Annuale" "fixed_amortizing" 0
      none).map PaymentRow.principal).sum = 3/2 ∧ (3/2 : ℚ) ≠ 1 := by
  have ht : total_payments 1 "Annuale" = 1 :=
    total_payments_eq freqParams_annuale (by norm_num) (by norm_num)
  constructor
  · rw [generate_fixed_amortizing, ht, freqParams_annuale]
    norm_num [fixed_amort_rows, fixed_amort_payment]
  · norm_num

/-- Claim C8 (amended): for every fixed-amortizing schedule with positive
principal, at least one period, and a non-negative annual rate, the sum of
the principal components equals the original principal exactly over exact
rational arithmetic. -/
theorem fixed_amortizing_principal_sum (L r d : ℚ) (freq : String) (vs : ℚ)
    (hL : 0 < L) (hr : 0 ≤ r) (hn : 1 ≤ total_payments d freq) :
    ((generate_schedule_rows L r d freq "fixed_amortizing" vs none).map
      PaymentRow.principal).sum = L := by
  rw [generate_fixed_amortizing, fixed_amort_rows_sum_principal,
    fixed_amort_final_zero L (r / ((freqParams freq).1 : ℚ))
      (total_payments d freq) (div_nonneg hr (Nat.cast_nonneg _)) hn]
  ring

theorem fixed_amortizing_principal_sum_witness :
    ((generate_schedule_rows 1000 (5/100) 1 "Annuale" "fixed_amortizing" 0
      none).map PaymentRow.principal).sum = 1000 :=
  fixed_amortizing_principal_sum 1000 (5/100) 1 "Annuale" 0 (by norm_num)
    (by norm_num)
    (by
      have h : total_payments 1 "Annuale" = 1 :=
        total_payments_eq freqParams_annuale (by norm_num) (by norm_num)
      omega)

/-! ### Claim C4 -/

/-- Claim C4 counterexample: with negative principal `-1`, the fixed-bullet
schedule's first period reports `remaining_balance = -1 < 0`, because the
interest-only rows emit the loan amount unclamped (`src/app.py:179`). -/
theorem bullet_negative_balance_example :
    (generate_schedule_rows (-1) 0 2 "Annuale" "fixed_bullet" 0 none).map
      PaymentRow.remaining_balance = [-1, 0] ∧ ¬ ((0 : ℚ) ≤ -1) := by
  have ht : total_payments 2 "Annuale" = 2 :=
    total_payments_eq freqParams_annuale (by norm_num) (by norm_num)
  constructor
  · rw [generate_fixed_bullet, ht]
    norm_num [bullet_rows, List.range_succ]
  · norm_num

/-- Claim C4 (amended): every generated schedule has period indices exactly
`1..total_periods` in ascending order with no gaps or repeats
(unconditionally); the reported `remaining_balance` is non-negative at every
period — unconditionally for the amortizing and custom structures (whose
emitted balances are clamped), and provided the principal is non-negative for
the bullet structures (whose interest-only rows emit the principal
unclamped); and the final period's `remaining_balance` is exactly `0`
provided the applicable annual rate is non-negative (the contractual rate for
FixedAmortizing, the risk-free rate plus the variable spread for
VariableAmortizing; the bullet structures need no rate condition) and, for
Custom, the entries' principal amounts are non-negative (the starting balance
is their sum, so the code's custom schedules are balanced by
construction). -/
theorem generate_schedule_invariants (L r d : ℚ) (freq : String) (vs : ℚ)
    (entries : List CustomEntry) :
    ((generate_schedule_rows L r d freq "fixed_amortizing" vs none).map
        PaymentRow.payment_number = List.range' 1 (total_payments d freq) ∧
      (∀ row ∈ generate_schedule_rows L r d freq "fixed_amortizing" vs none,
        0 ≤ row.remaining_balance) ∧
      (0 ≤ r → 1 ≤ total_payments d freq →
        ((generate_schedule_rows L r d freq "fixed_amortizing" vs
          none).getLast?).map PaymentRow.remaining_balance = some 0)) ∧
    ((generate_schedule_rows L r d freq "variable_amortizing" vs none).map
        PaymentRow.payment_number = List.range' 1 (total_payments d freq) ∧
      (∀ row ∈ generate_schedule_rows L r d freq "variable_amortizing" vs none,
        0 ≤ row.remaining_balance) ∧
      (0 ≤ risk_free_rate + vs → 1 ≤ total_payments d freq →
        ((generate_schedule_rows L r d freq "variable_amortizing" vs
          none).getLast?).map PaymentRow.remaining_balance = some 0)) ∧
    ((generate_schedule_rows L r d freq "fixed_bullet" vs none).map
        PaymentRow.payment_number = List.range' 1 (total_payments d freq) ∧
      (0 ≤ L →
        ∀ row ∈ generate_schedule_rows L r d freq "fixed_bullet" vs none,
          0 ≤ row.remaining_balance) ∧
      (1 ≤ total_payments d freq →
        ((generate_schedule_rows L r d freq "fixed_bullet" vs
          none).getLast?).map PaymentRow.remaining_balance = some 0)) ∧
    ((generate_schedule_rows L r d freq "variable_bullet" vs none).map
        PaymentRow.payment_number = List.range' 1 (total_payments d freq) ∧
      (0 ≤ L →
        ∀ row ∈ generate_schedule_rows L r d freq "variable_bullet" vs none,
          0 ≤ row.remaining_balance) ∧
      (1 ≤ total_payments d freq →
        ((generate_schedule_rows L r d freq "variable_bullet" vs
          none).getLast?).map PaymentRow.remaining_balance = some 0)) ∧
    ((generate_schedule_rows L r d freq "custom" vs (some entries)).map
        PaymentRow.payment_number = List.range' 1 entries.length ∧
      (∀ row ∈ generate_schedule_rows L r d freq "custom" vs (some entries),
        0 ≤ row.remaining_balance) ∧
      (entries ≠ [] → (∀ e ∈ entries, 0 ≤ e.capitale) →
        ((generate_schedule_rows L r d freq "custom" vs
          (some entries)).getLast?).map PaymentRow.remaining_balance =
            some 0)) := by
  refine ⟨⟨?_, ?_, ?_⟩, ⟨?_, ?_, ?_⟩, ⟨?_, ?_, ?_⟩, ⟨?_, ?_, ?_⟩,
    ⟨?_, ?_, ?_⟩⟩
  · rw [generate_fixed_amortizing]
    exact fixed_amort_rows_map_pn _ _ _ _ _ _
  · rw [generate_fixed_amortizing]
    intro row h
    exact fixed_amort_rows_nonneg _ _ _ _ _ _ row h
  · intro hr hn
    obtain ⟨m, hm⟩ : ∃ m, total_payments d freq = m + 1 :=
      ⟨total_payments d freq - 1, by omega⟩
    rw [generate_fixed_amortizing, hm, fixed_amort_rows_getLast,
      fixed_amort_final_zero L _ (m + 1)
        (div_nonneg hr (Nat.cast_nonneg _)) (by omega)]
    simp
  · rw [generate_variable_amortizing]
    exact var_amort_rows_map_pn _ _ _ _ _
  · rw [generate_variable_amortizing]
    intro row h
    exact var_amort_rows_nonneg _ _ _ _ _ row h
  · intro hv hn
    obtain ⟨m, hm⟩ : ∃ m, total_payments d freq = m + 1 :=
      ⟨total_payments d freq - 1, by omega⟩
    rw [generate_variable_amortizing, hm]
    exact var_amort_rows_getLast_zero _ _
      (div_nonneg hv (Nat.cast_nonneg _)) m 1 L
  · rw [generate_fixed_bullet]
    exact bullet_rows_map_pn _ _ _ _
  · intro hL
    rw [generate_fixed_bullet]
    exact bullet_rows_nonneg _ _ _ _ hL
  · intro hn
    obtain ⟨m, hm⟩ : ∃ m, total_payments d freq = m + 1 :=
      ⟨total_payments d freq - 1, by omega⟩
    rw [generate_fixed_bullet, hm]
    exact bullet_rows_getLast_zero _ _ _ m
  · rw [generate_variable_bullet]
    exact bullet_rows_map_pn _ _ _ _
  · intro hL
    rw [generate_variable_bullet]
    exact bullet_rows_nonneg _ _ _ _ hL
  · intro hn
    obtain ⟨m, hm⟩ : ∃ m, total_payments d freq = m + 1 :=
      ⟨total_payments d freq - 1, by omega⟩
    rw [generate_variable_bullet, hm]
    exact bullet_rows_getLast_zero _ _ _ m
  · rw [generate_custom, generate_custom_schedule]
    exact custom_rows_map_pn _ _ _ _ _
  · rw [generate_custom, generate_custom_schedule]
    intro row h
    exact custom_rows_nonneg _ _ _ _ _ row h
  · intro hne hcaps
    rw [generate_custom, generate_custom_schedule]
    exact custom_rows_last_zero r entries hne hcaps 0 1

theorem generate_schedule_invariants_witness :
    ((generate_schedule_rows 1000 (5/100) 1 "Annuale" "fixed_amortizing" 0
      none).getLast?).map PaymentRow.remaining_balance = some 0 :=
  (generate_schedule_invariants 1000 (5/100) 1 "Annuale" 0
    [⟨180, 600⟩, ⟨365, 400⟩]).1.2.2 (by norm_num)
    (by
      have h : total_payments 1 "Annuale" = 1 :=
        total_payments_eq freqParams_annuale (by norm_num) (by norm_num)
      omega)

/-! ### Claim C7 -/

/-- Claim C7 counterexample: `generate_custom_schedule` applied directly to an
entry list out of date order returns rows whose due dates are not ascending —
the generator itself performs no sorting (the negative day gap makes the
second accrual period negative). -/
theorem custom_unsorted_example :
    (generate_custom_schedule [⟨10, 1⟩, ⟨5, 1⟩] (4/100)).map
      PaymentRow.date = [10, 5] ∧ ¬ ((10 : ℤ) ≤ 5) := by
  constructor
  · rw [generate_custom_schedule, custom_rows_map_date]
    rfl
  · decide

/-- Claim C7 (amended): the generator itself does not sort — entries are
processed in the order supplied, so an out-of-order list yields
non-ascending due dates and a negative accrual day gap (counterexample
above).  A correct schedule therefore requires the caller to supply the
entries already ordered by due date: for every entry list sorted by
ascending due date and containing no date before the generation instant, the
returned schedule's due dates are ascending and every accrual day gap —
including the first, measured from "now" (day 0) — is non-negative.  (The
UI's `sort_values('Date')` at `src/app.py:443` keeps pandas index labels, so
for out-of-order input the real sorted pipeline raises `IndexError` in the
generator's label-keyed accesses rather than producing a schedule; only the
already-ordered case reaches the generator as the default-indexed frame this
embedding models.) -/
theorem custom_sorted_dates (entries : List CustomEntry) (rate : ℚ)
    (hsorted : List.Sorted (· ≤ ·) (entries.map CustomEntry.date))
    (h0 : ∀ e ∈ entries, 0 ≤ e.date) :
    List.Chain' (· ≤ ·)
      ((0 : ℤ) :: (generate_custom_schedule entries rate).map
        PaymentRow.date) := by
  rw [generate_custom_schedule, custom_rows_map_date]
  refine List.chain'_cons'.mpr ⟨?_, List.Pairwise.chain' hsorted⟩
  intro y hy
  have hmem : y ∈ entries.map CustomEntry.date := List.mem_of_mem_head? hy
  rcases List.mem_map.mp hmem with ⟨e, he, rfl⟩
  exact h0 e he

theorem custom_sorted_dates_witness :
    List.Chain' (· ≤ ·)
      ((0 : ℤ) :: (generate_custom_schedule [⟨5, 1⟩, ⟨10, 1⟩] (4/100)).map
        PaymentRow.date) :=
  custom_sorted_dates [⟨5, 1⟩, ⟨10, 1⟩] (4/100)
    (by
      simp only [List.map_cons, List.map_nil]
      exact List.sorted_cons.mpr ⟨by
        intro b hb
        simp only [List.mem_singleton] at hb
        omega, List.sorted_singleton 10⟩)
    (by
      intro e he
      simp only [List.mem_cons, List.not_mem_nil, or_false] at he
      rcases he with rfl | rfl <;> decide)

end LoanPricing
